import Mathlib

/-
Verification of the winit Wayland window store, monitor/DPI aggregator and
X11 error slot, as a shallow embedding of
  src/platform/linux/wayland/window.rs
  src/platform_impl/linux/x11/xdisplay.rs
Mutex-guarded shared cells are flattened into plain record fields, weak
references become Option values (none = upgrade failed), and a Rust panic
(expect / unwrap) is modelled as Except.error or Option.none.
-/

namespace Winit

/-- WindowId is produced by make_wid from the surface proxy identity. -/
abbrev WindowId := Nat

/-- Embedding of make_wid: the id derived from a surface proxy. -/
def make_wid (surface : Nat) : WindowId := surface

/-- A display output as the Wayland backend sees it: proxy is the identity of
the wl_output proxy, dpi the factor reported by get_hidpi_factor. -/
structure MonitorId where
  proxy : Nat
  dpi : Int
deriving DecidableEq, Repr

/-- Embedding of MonitorId::get_hidpi_factor. -/
def MonitorId.get_hidpi_factor (m : MonitorId) : Int := m.dpi

/-- Embedding of MonitorList: monitors the window is currently on. -/
structure MonitorList where
  monitors : List MonitorId
deriving DecidableEq, Repr

/-- Embedding of MonitorList::new. -/
def MonitorList.new : MonitorList := ⟨[]⟩

/-- Embedding of MonitorList::compute_hidpi_factor: fold starting at 1,
replacing the accumulator whenever a monitor reports a larger factor. -/
def MonitorList.compute_hidpi_factor (l : MonitorList) : Int :=
  l.monitors.foldl
    (fun factor m => if m.get_hidpi_factor > factor then m.get_hidpi_factor else factor) 1

/-- Embedding of MonitorList::add_output: push the monitor, return the
added factor only when it strictly exceeds the previous aggregate. -/
def MonitorList.add_output (l : MonitorList) (monitor : MonitorId) : Option Int × MonitorList :=
  let old_dpi := l.compute_hidpi_factor
  let monitor_dpi := monitor.get_hidpi_factor
  let l2 : MonitorList := ⟨l.monitors ++ [monitor]⟩
  if monitor_dpi > old_dpi then (some monitor_dpi, l2) else (none, l2)

/-- Embedding of MonitorList::del_output: retain monitors whose proxy is not
the removed output, return the recomputed factor only when it changed. -/
def MonitorList.del_output (l : MonitorList) (output : Nat) : Option Int × MonitorList :=
  let old_dpi := l.compute_hidpi_factor
  let l2 : MonitorList := ⟨l.monitors.filter (fun m => !(m.proxy == output))⟩
  let new_dpi := l2.compute_hidpi_factor
  if new_dpi ≠ old_dpi then (some new_dpi, l2) else (none, l2)

/-- Scenario of spec property 1: add a factor-1 monitor to the empty list. -/
def sc1 : Option Int × MonitorList := MonitorList.new.add_output ⟨1, 1⟩

/-- Scenario step: add a factor-2 monitor. -/
def sc2 : Option Int × MonitorList := sc1.2.add_output ⟨2, 2⟩

/-- Scenario step: add a factor-3 monitor. -/
def sc3 : Option Int × MonitorList := sc2.2.add_output ⟨3, 3⟩

/-- Scenario step: remove the factor-3 monitor. -/
def sc4 : Option Int × MonitorList := sc3.2.del_output 3

/-- Scenario step: remove the two remaining monitors. -/
def scEmpty : MonitorList := ((sc4.2.del_output 2).2.del_output 1).2

/-
The frame object behind the window (sctk SWindow with BasicFrame). It is an
external collaborator; its setters are modelled as plain record updates, the
fields recording exactly what the window code hands to it.
-/

/-- State of the sctk frame object (SWindow with BasicFrame). -/
structure SWindow where
  title : String
  fsize : Nat × Nat
  min_size : Option (Nat × Nat)
  max_size : Option (Nat × Nat)
  resizable : Bool
  decorated : Bool
  maximized : Bool
  fullscreen : Option Nat
  seats : List Nat
deriving DecidableEq, Repr

/-- Frame setter: set_title. -/
def SWindow.set_title (f : SWindow) (t : String) : SWindow := { f with title := t }

/-- Frame setter: resize. -/
def SWindow.resize (f : SWindow) (w h : Nat) : SWindow := { f with fsize := (w, h) }

/-- Frame setter: set_min_size. -/
def SWindow.set_min_size (f : SWindow) (d : Option (Nat × Nat)) : SWindow :=
  { f with min_size := d }

/-- Frame setter: set_max_size. -/
def SWindow.set_max_size (f : SWindow) (d : Option (Nat × Nat)) : SWindow :=
  { f with max_size := d }

/-- Frame setter: set_resizable. -/
def SWindow.set_resizable (f : SWindow) (b : Bool) : SWindow := { f with resizable := b }

/-- Frame setter: set_decorate. -/
def SWindow.set_decorate (f : SWindow) (b : Bool) : SWindow := { f with decorated := b }

/-- Frame setter: set_maximized / unset_maximized. -/
def SWindow.put_maximized (f : SWindow) (b : Bool) : SWindow := { f with maximized := b }

/-- Frame setter: set_fullscreen / unset_fullscreen. -/
def SWindow.put_fullscreen (f : SWindow) (m : Option Nat) : SWindow := { f with fullscreen := m }

/-- Frame: new_seat registers a seat with the frame. -/
def SWindow.new_seat (f : SWindow) (seat : Nat) : SWindow := { f with seats := f.seats ++ [seat] }

/-
The internal per-window record of the store. The shared cells (Arc Mutex)
are flattened: kill_switch is none when the record was pushed without a
switch (new_from_raw_parts) and some b when a switch with value b exists.
The weak frame reference is an Option of the Arc content: none means the
upgrade fails (frame Arc already dropped), some none means the upgrade
succeeds but the slot is empty (raw-parts window), some (some f) a live frame.
-/

/-- Embedding of InternalWindow. -/
structure InternalWindow where
  surface : Nat
  newsize : Option (Nat × Nat)
  size : Nat × Nat
  need_refresh : Bool
  need_frame_refresh : Bool
  closed : Bool
  kill_switch : Option Bool
  frame : Option (Option SWindow)
  current_dpi : Int
  new_dpi : Option Int
deriving DecidableEq, Repr

/-- Embedding of WindowStore. -/
structure WindowStore where
  windows : List InternalWindow
deriving DecidableEq, Repr

/-- Embedding of WindowStore::new. -/
def WindowStore.new : WindowStore := ⟨[]⟩

/-- Embedding of WindowStore::find_wid: first record with this surface. -/
def WindowStore.find_wid (s : WindowStore) (surface : Nat) : Option WindowId :=
  (s.windows.find? (fun w => w.surface == surface)).map (fun _ => make_wid surface)

/-- The retain predicate of WindowStore::cleanup: a record is pruned exactly
when it has a kill switch and that switch is set. -/
def killSet (w : InternalWindow) : Bool := w.kill_switch == some true

/-- Recursive core of WindowStore::cleanup: first component the retained
records, second the pruned ids in iteration order, third the surfaces
destroyed (surface.destroy is called for each pruned record). -/
def cleanupWindows : List InternalWindow → List InternalWindow × List WindowId × List Nat
  | [] => ([], [], [])
  | w :: ws =>
    let rest := cleanupWindows ws
    if killSet w then (rest.1, make_wid w.surface :: rest.2.1, w.surface :: rest.2.2)
    else (w :: rest.1, rest.2.1, rest.2.2)

/-- Embedding of WindowStore::cleanup. -/
def WindowStore.cleanup (s : WindowStore) : WindowStore × List WindowId × List Nat :=
  let r := cleanupWindows s.windows
  (⟨r.1⟩, r.2.1, r.2.2)

/-- Embedding of WindowStore::dpi_change: set new_dpi on every record whose
surface matches. -/
def WindowStore.dpi_change (s : WindowStore) (surface : Nat) (new : Int) : WindowStore :=
  ⟨s.windows.map (fun w => if w.surface == surface then { w with new_dpi := some new } else w)⟩

/-- The tuple handed to the for_each visitor for one record: newsize taken,
the flag values as read, the frame argument flattened from the weak upgrade
and the slot (none when either fails). -/
structure VisitSnapshot where
  newsize : Option (Nat × Nat)
  size : Nat × Nat
  new_dpi : Option Int
  need_refresh : Bool
  need_frame_refresh : Bool
  closed : Bool
  wid : WindowId
  frame : Option SWindow
deriving DecidableEq, Repr

/-- The arguments WindowStore::for_each passes to the visitor for a record. -/
def visitOf (w : InternalWindow) : VisitSnapshot :=
  { newsize := w.newsize
    size := w.size
    new_dpi := w.new_dpi
    need_refresh := w.need_refresh
    need_frame_refresh := w.need_frame_refresh
    closed := w.closed
    wid := make_wid w.surface
    frame := w.frame.bind id }

/-- The state of a record after one for_each visit: newsize taken,
need_frame_refresh replaced by false, new_dpi taken into current_dpi,
need_refresh and closed reset. -/
def drainWindow (w : InternalWindow) : InternalWindow :=
  { w with
    newsize := none
    need_frame_refresh := false
    current_dpi := w.new_dpi.getD w.current_dpi
    new_dpi := none
    need_refresh := false
    closed := false }

/-- Embedding of WindowStore::for_each: returns the drained store and the
sequence of visitor invocations (the visitor is called once per record,
whether or not the weak frame reference upgrades). -/
def WindowStore.for_each (s : WindowStore) : WindowStore × List VisitSnapshot :=
  (⟨s.windows.map drainWindow⟩, s.windows.map visitOf)

/-- The panic message of the frame expect calls. -/
def frameExpectMsg : String := "Cannot operate on the frame of a window made from raw parts."

/-- One step of WindowStore::new_seat: records whose weak frame fails to
upgrade are skipped; an upgradeable record with an empty slot hits the
expect (modelled as Except.error). -/
def newSeatWindow (seat : Nat) (w : InternalWindow) : Except String InternalWindow :=
  match w.frame with
  | none => .ok w
  | some none => .error frameExpectMsg
  | some (some f) => .ok { w with frame := some (some (f.new_seat seat)) }

/-- Recursive core of WindowStore::new_seat. -/
def newSeatWindows (seat : Nat) : List InternalWindow → Except String (List InternalWindow)
  | [] => .ok []
  | w :: ws =>
    match newSeatWindow seat w with
    | .error e => .error e
    | .ok w2 =>
      match newSeatWindows seat ws with
      | .error e => .error e
      | .ok ws2 => .ok (w2 :: ws2)

/-- Embedding of WindowStore::new_seat. -/
def WindowStore.new_seat (s : WindowStore) (seat : Nat) : Except String WindowStore :=
  match newSeatWindows seat s.windows with
  | .error e => .error e
  | .ok ws => .ok ⟨ws⟩

/-
The Window handle and the parts of EventsLoop it touches. The handle field
has_kill_switch mirrors the Option presence of the kill_switch pair in the
source handle (Some for Window::new, None for new_from_raw_parts); the
shared flag cells live in the store record and the loop state.
-/

/-- The parts of the EventsLoop the window code touches: the shared store
and the cleanup_needed flag that Drop sets alongside the kill switch. -/
structure EventsLoopState where
  store : WindowStore
  cleanup_needed : Bool
deriving DecidableEq, Repr

/-- Embedding of RawWindowParts. -/
structure RawWindowParts where
  surface : Nat
  width : Nat
  height : Nat
deriving DecidableEq, Repr

/-- Embedding of the Window handle. -/
structure Window where
  surface : Nat
  frame : Option SWindow
  monitors : MonitorList
  size : Nat × Nat
  has_kill_switch : Bool
  need_frame_refresh : Bool
deriving DecidableEq, Repr

/-- The record Window::new_from_raw_parts pushes into the store: no kill
switch, weak frame upgradeable to an empty slot, dpi 1, nothing pending. -/
def rawPartsRecord (rwp : RawWindowParts) : InternalWindow :=
  { surface := rwp.surface
    newsize := none
    size := (rwp.width, rwp.height)
    need_refresh := false
    need_frame_refresh := false
    closed := false
    kill_switch := none
    frame := some none
    current_dpi := 1
    new_dpi := none }

/-- Embedding of Window::new_from_raw_parts: push the record, return a
handle whose frame slot is empty and which carries no kill switch. -/
def Window.new_from_raw_parts (evlp : EventsLoopState) (rwp : RawWindowParts) :
    Window × EventsLoopState :=
  ({ surface := rwp.surface
     frame := none
     monitors := MonitorList.new
     size := (rwp.width, rwp.height)
     has_kill_switch := false
     need_frame_refresh := false },
   { evlp with store := ⟨evlp.store.windows ++ [rawPartsRecord rwp]⟩ })

/-- The record Window::new pushes into the store: fresh kill switch set to
false, weak frame upgradeable to the live frame, need_frame_refresh true. -/
def windowNewRecord (surface : Nat) (width height : Nat) (fr : SWindow) : InternalWindow :=
  { surface := surface
    newsize := none
    size := (width, height)
    need_refresh := false
    need_frame_refresh := true
    closed := false
    kill_switch := some false
    frame := some (some fr)
    current_dpi := 1
    new_dpi := none }

/-- Embedding of Window::new, with the fresh surface proxy identity and the
initialized frame passed as parameters (surface creation and frame init
are protocol calls of the external collaborators). -/
def Window.new (evlp : EventsLoopState) (surface : Nat) (width height : Nat)
    (fr : SWindow) : Window × EventsLoopState :=
  ({ surface := surface
     frame := some fr
     monitors := MonitorList.new
     size := (width, height)
     has_kill_switch := true
     need_frame_refresh := true },
   { evlp with store := ⟨evlp.store.windows ++ [windowNewRecord surface width height fr]⟩ })

/-- Setting the shared kill-switch cell of the record belonging to a
dropped handle: the record with the handle surface has its switch value
overwritten with true (a record without a switch has no cell to set). -/
def dropMark (surf : Nat) (iw : InternalWindow) : InternalWindow :=
  if iw.surface == surf then
    { iw with kill_switch := iw.kill_switch.map (fun _ => true) }
  else iw

/-- Embedding of the Drop impl for Window: when the handle holds a kill
switch pair, set the switch of the matching store record and the loop
cleanup_needed flag; otherwise do nothing. The store record list is never
touched beyond the flag. -/
def Window.drop (evlp : EventsLoopState) (w : Window) : EventsLoopState :=
  if w.has_kill_switch then
    { store := ⟨evlp.store.windows.map (dropMark w.surface)⟩
      cleanup_needed := true }
  else evlp

/-- Embedding of Window::set_title: the expect on an empty frame slot is
modelled as Except.error with the panic message. -/
def Window.set_title (w : Window) (t : String) : Except String Window :=
  match w.frame with
  | none => .error frameExpectMsg
  | some f => .ok { w with frame := some (f.set_title t) }

/-- Embedding of Window::set_inner_size: resize the frame, then update the
shared size cell. -/
def Window.set_inner_size (w : Window) (sz : Nat × Nat) : Except String Window :=
  match w.frame with
  | none => .error frameExpectMsg
  | some f => .ok { w with frame := some (f.resize sz.1 sz.2), size := sz }

/-- Embedding of Window::set_min_dimensions. -/
def Window.set_min_dimensions (w : Window) (d : Option (Nat × Nat)) : Except String Window :=
  match w.frame with
  | none => .error frameExpectMsg
  | some f => .ok { w with frame := some (f.set_min_size d) }

/-- Embedding of Window::set_max_dimensions. -/
def Window.set_max_dimensions (w : Window) (d : Option (Nat × Nat)) : Except String Window :=
  match w.frame with
  | none => .error frameExpectMsg
  | some f => .ok { w with frame := some (f.set_max_size d) }

/-- Embedding of Window::set_resizable. -/
def Window.set_resizable (w : Window) (b : Bool) : Except String Window :=
  match w.frame with
  | none => .error frameExpectMsg
  | some f => .ok { w with frame := some (f.set_resizable b) }

/-- Embedding of Window::set_decorations: set_decorate on the frame, then
flag need_frame_refresh. -/
def Window.set_decorations (w : Window) (b : Bool) : Except String Window :=
  match w.frame with
  | none => .error frameExpectMsg
  | some f => .ok { w with frame := some (f.set_decorate b), need_frame_refresh := true }

/-- Embedding of Window::set_maximized: both branches first expect the
frame, then call set_maximized or unset_maximized. -/
def Window.set_maximized (w : Window) (b : Bool) : Except String Window :=
  match w.frame with
  | none => .error frameExpectMsg
  | some f => .ok { w with frame := some (f.put_maximized b) }

/-- Embedding of Window::set_fullscreen: both branches first expect the
frame, then call set_fullscreen or unset_fullscreen. -/
def Window.set_fullscreen (w : Window) (m : Option Nat) : Except String Window :=
  match w.frame with
  | none => .error frameExpectMsg
  | some f => .ok { w with frame := some (f.put_fullscreen m) }

/-- Error string returned by Window::grab_cursor on Wayland. -/
def grabCursorMsg : String := "Cursor grabbing is not yet possible on Wayland."

/-- Error string returned by Window::set_cursor_position on Wayland. -/
def setCursorPositionMsg : String := "Setting the cursor position is not yet possible on Wayland."

/-- Embedding of Window::grab_cursor: always Err on Wayland, the window
state untouched. -/
def Window.grab_cursor (w : Window) (_grab : Bool) : Except String Unit × Window :=
  (.error grabCursorMsg, w)

/-- Embedding of Window::set_cursor_position: always Err on Wayland, the
window state untouched. -/
def Window.set_cursor_position (w : Window) (_pos : Int × Int) : Except String Unit × Window :=
  (.error setCursorPositionMsg, w)

/-- Embedding of Window::hidpi_factor: delegates to the aggregator. -/
def Window.hidpi_factor (w : Window) : Int := w.monitors.compute_hidpi_factor

/-- Embedding of Window::get_current_monitor: last of the monitor list,
unwrapped; the unwrap panic on an empty list is modelled as none. -/
def Window.get_current_monitor (w : Window) : Option MonitorId :=
  w.monitors.monitors.getLast?

/-- Embedding of Window::id. -/
def Window.id (w : Window) : WindowId := make_wid w.surface

/-
X11 connection error slot, from xdisplay.rs.
-/

/-- Embedding of XError. -/
structure XError where
  description : String
  error_code : Nat
  request_code : Nat
  minor_code : Nat
deriving DecidableEq, Repr

/-- The error-slot state of an XConnection: the latest_error cell. -/
structure XConnectionState where
  latest_error : Option XError
deriving DecidableEq, Repr

/-- Embedding of XConnection::check_errors: take the slot content (leaving
none) and return Err of it when present. -/
def XConnectionState.check_errors (s : XConnectionState) : Except XError Unit × XConnectionState :=
  match s.latest_error with
  | some e => (.error e, ⟨none⟩)
  | none => (.ok (), ⟨none⟩)

/-- Embedding of XConnection::ignore_error: overwrite the slot with none. -/
def XConnectionState.ignore_error (_ : XConnectionState) : XConnectionState := ⟨none⟩

/-- Modelled from the spec: the native X error hook installed through
XSetErrorHandler is not under src; per the spec it captures each
asynchronous native error into the single latest_error slot, an unchecked
error being overwritten by the next one (last-write-wins, no queueing). -/
def XConnectionState.set_error (_ : XConnectionState) (e : XError) : XConnectionState :=
  ⟨some e⟩

/-
Concrete sample values used by witnesses and counterexamples.
-/

/-- A quiescent store record with a given surface and kill switch. -/
def sampleWindow (surf : Nat) (ks : Option Bool) : InternalWindow :=
  { surface := surf
    newsize := none
    size := (800, 600)
    need_refresh := false
    need_frame_refresh := false
    closed := false
    kill_switch := ks
    frame := none
    current_dpi := 1
    new_dpi := none }

/-- A record with every one-shot field pending, for the drain witness. -/
def pendingWindow : InternalWindow :=
  { surface := 4
    newsize := some (640, 480)
    size := (800, 600)
    need_refresh := true
    need_frame_refresh := true
    closed := true
    kill_switch := some false
    frame := none
    current_dpi := 1
    new_dpi := some 2 }

/-- A concrete frame object. -/
def sampleFrame : SWindow :=
  { title := "w"
    fsize := (800, 600)
    min_size := none
    max_size := none
    resizable := true
    decorated := true
    maximized := false
    fullscreen := none
    seats := [] }

/-- A record whose weak frame reference no longer upgrades. -/
def deadFrameWindow : InternalWindow :=
  { surface := 9
    newsize := none
    size := (1, 1)
    need_refresh := false
    need_frame_refresh := false
    closed := false
    kill_switch := some false
    frame := none
    current_dpi := 1
    new_dpi := none }

/-- A record holding a live frame. -/
def liveFrameWindow : InternalWindow :=
  { deadFrameWindow with surface := 10, frame := some (some sampleFrame) }

/-- An empty loop state. -/
def emptyEvlp : EventsLoopState := { store := ⟨[]⟩, cleanup_needed := false }

/-- Handle and loop state after new_from_raw_parts on surface 7. -/
def rawPair : Window × EventsLoopState :=
  Window.new_from_raw_parts emptyEvlp ⟨7, 100, 100⟩

/-- Handle and loop state after Window::new on surface 5. -/
def newPair : Window × EventsLoopState :=
  Window.new emptyEvlp 5 800 600 sampleFrame

/-- A window handle with an empty monitor list. -/
def bareWindow : Window :=
  { surface := 3
    frame := none
    monitors := ⟨[]⟩
    size := (1, 1)
    has_kill_switch := false
    need_frame_refresh := false }

/-- A concrete X error. -/
def xerrA : XError := ⟨"first", 1, 2, 3⟩

/-- Another concrete X error. -/
def xerrB : XError := ⟨"second", 4, 5, 6⟩

/-
Theorems.
-/

/-- The aggregate factor over a list extended by one monitor is the old
aggregate, replaced by the factor of the new monitor when that is larger. -/
theorem compute_hidpi_factor_append (ms : List MonitorId) (m : MonitorId) :
    MonitorList.compute_hidpi_factor ⟨ms ++ [m]⟩ =
      if m.get_hidpi_factor > MonitorList.compute_hidpi_factor ⟨ms⟩ then m.get_hidpi_factor
      else MonitorList.compute_hidpi_factor ⟨ms⟩ := by
  simp [MonitorList.compute_hidpi_factor, List.foldl_append]

/-- C1: add_output returns Some exactly when the added monitor factor
strictly exceeds the previous aggregate, and then it is the new aggregate;
del_output returns Some exactly when the aggregate changed, and then it is
the new aggregate; the aggregate of an empty list is 1; and the concrete
scenario [1,2,3] yields None, Some 2, Some 3, removal of the factor-3
monitor yields Some 2 and removing everything puts the factor back at 1. -/
theorem dpi_aggregation_spec :
    (∀ l : MonitorList, l.monitors = [] → l.compute_hidpi_factor = 1)
    ∧ (∀ (l : MonitorList) (m : MonitorId),
        m.get_hidpi_factor > l.compute_hidpi_factor →
          (l.add_output m).1 = some ((l.add_output m).2.compute_hidpi_factor))
    ∧ (∀ (l : MonitorList) (m : MonitorId),
        ¬ m.get_hidpi_factor > l.compute_hidpi_factor → (l.add_output m).1 = none)
    ∧ (∀ (l : MonitorList) (o : Nat),
        ((l.del_output o).1 = none ↔
          (l.del_output o).2.compute_hidpi_factor = l.compute_hidpi_factor)
        ∧ ((l.del_output o).2.compute_hidpi_factor ≠ l.compute_hidpi_factor →
            (l.del_output o).1 = some ((l.del_output o).2.compute_hidpi_factor)))
    ∧ (sc1.1 = none ∧ sc2.1 = some 2 ∧ sc3.1 = some 3 ∧ sc4.1 = some 2
        ∧ scEmpty.compute_hidpi_factor = 1) := by
  refine ⟨?_, ?_, ?_, ?_, ?_⟩
  · intro l h
    simp [MonitorList.compute_hidpi_factor, h]
  · intro l m h
    have h2 : l.add_output m = (some m.get_hidpi_factor, ⟨l.monitors ++ [m]⟩) := by
      simp [MonitorList.add_output, h]
    rw [h2, compute_hidpi_factor_append]
    simp [h]
  · intro l m h
    simp [MonitorList.add_output, h]
  · intro l o
    unfold MonitorList.del_output
    by_cases h :
        MonitorList.compute_hidpi_factor ⟨l.monitors.filter (fun m => !(m.proxy == o))⟩ =
          l.compute_hidpi_factor
    · simp [h]
    · simp [h]
  · refine ⟨by decide, by decide, by decide, by decide, by decide⟩

/-- C1 witness: adding a factor-2 monitor to the empty list reports the new
aggregate 2. -/
theorem dpi_aggregation_spec_witness :
    ((MonitorList.mk []).add_output ⟨0, 2⟩).1 =
      some (((MonitorList.mk []).add_output ⟨0, 2⟩).2.compute_hidpi_factor) :=
  dpi_aggregation_spec.2.1 ⟨[]⟩ ⟨0, 2⟩ (by decide)

/-- The cleanup recursion keeps exactly the records whose kill switch is not
set, and prunes and destroys exactly the set ones, in iteration order. -/
theorem cleanupWindows_spec (ws : List InternalWindow) :
    (cleanupWindows ws).1 = ws.filter (fun w => !killSet w)
    ∧ (cleanupWindows ws).2.1 = (ws.filter killSet).map (fun w => make_wid w.surface)
    ∧ (cleanupWindows ws).2.2 = (ws.filter killSet).map (fun w => w.surface) := by
  induction ws with
  | nil => simp [cleanupWindows]
  | cons w ws ih =>
    obtain ⟨h1, h2, h3⟩ := ih
    by_cases hk : killSet w = true
    · simp [cleanupWindows, hk, h1, h2, h3]
    · simp [cleanupWindows, hk, h1, h2, h3]

/-- C3: one cleanup pass removes exactly the records whose kill switch is
set, destroys exactly their surfaces, returns exactly their ids in order
and each exactly once (given distinct surfaces), and a second pass with no
new kill switches returns the empty sequence. -/
theorem cleanup_exactly_once (s : WindowStore)
    (hnd : (s.windows.map (fun w => w.surface)).Nodup) :
    s.cleanup.2.1 = (s.windows.filter killSet).map (fun w => make_wid w.surface)
    ∧ s.cleanup.2.2 = (s.windows.filter killSet).map (fun w => w.surface)
    ∧ s.cleanup.1.windows = s.windows.filter (fun w => !killSet w)
    ∧ s.cleanup.2.1.Nodup
    ∧ s.cleanup.1.cleanup.2.1 = [] := by
  obtain ⟨h1, h2, h3⟩ := cleanupWindows_spec s.windows
  refine ⟨h2, h3, h1, ?_, ?_⟩
  · rw [show s.cleanup.2.1 = (cleanupWindows s.windows).2.1 from rfl, h2]
    have hsub : ((s.windows.filter killSet).map (fun w => w.surface)).Nodup :=
      hnd.sublist ((List.filter_sublist _).map _)
    simpa [make_wid] using hsub
  · show (cleanupWindows s.cleanup.1.windows).2.1 = []
    rw [(cleanupWindows_spec s.cleanup.1.windows).2.1]
    rw [show s.cleanup.1.windows = (cleanupWindows s.windows).1 from rfl, h1]
    simp [List.filter_filter]

/-- C3 witness: in a two-record store with just the first kill switch set,
cleanup prunes id 1 only, destroys surface 1 only, keeps record 2, and a
second pass prunes nothing. -/
theorem cleanup_exactly_once_witness :
    (WindowStore.mk [sampleWindow 1 (some true), sampleWindow 2 (some false)]).cleanup.2.1 =
      (((WindowStore.mk [sampleWindow 1 (some true), sampleWindow 2 (some false)]).windows.filter
          killSet).map (fun w => make_wid w.surface))
    ∧ (WindowStore.mk [sampleWindow 1 (some true), sampleWindow 2 (some false)]).cleanup.2.2 =
      (((WindowStore.mk [sampleWindow 1 (some true), sampleWindow 2 (some false)]).windows.filter
          killSet).map (fun w => w.surface))
    ∧ (WindowStore.mk [sampleWindow 1 (some true), sampleWindow 2 (some false)]).cleanup.1.windows =
      ((WindowStore.mk [sampleWindow 1 (some true), sampleWindow 2 (some false)]).windows.filter
          (fun w => !killSet w))
    ∧ (WindowStore.mk [sampleWindow 1 (some true), sampleWindow 2 (some false)]).cleanup.2.1.Nodup
    ∧ (WindowStore.mk
        [sampleWindow 1 (some true), sampleWindow 2 (some false)]).cleanup.1.cleanup.2.1 = [] :=
  cleanup_exactly_once ⟨[sampleWindow 1 (some true), sampleWindow 2 (some false)]⟩ (by decide)

/-- C4: one drain pass clears the pending resize and pending DPI of every
record (committing the pending DPI, when present, to the current DPI) and
resets needs-redraw, needs-frame-refresh and the one-shot closed flag, so a
second pass with no intervening native events reports every field clear. -/
theorem drain_resets (s : WindowStore) :
    (∀ w ∈ s.for_each.1.windows,
        w.newsize = none ∧ w.new_dpi = none ∧ w.need_refresh = false
        ∧ w.need_frame_refresh = false ∧ w.closed = false)
    ∧ (∀ w ∈ s.windows, ∀ d, w.new_dpi = some d → (drainWindow w).current_dpi = d)
    ∧ (∀ w ∈ s.windows, w.new_dpi = none → (drainWindow w).current_dpi = w.current_dpi)
    ∧ (∀ v ∈ s.for_each.1.for_each.2,
        v.newsize = none ∧ v.new_dpi = none ∧ v.need_refresh = false
        ∧ v.need_frame_refresh = false ∧ v.closed = false) := by
  refine ⟨?_, ?_, ?_, ?_⟩
  · intro w hw
    rw [show s.for_each.1.windows = s.windows.map drainWindow from rfl] at hw
    obtain ⟨x, _, rfl⟩ := List.mem_map.1 hw
    simp [drainWindow]
  · intro w _ d hd
    simp [drainWindow, hd]
  · intro w _ hd
    simp [drainWindow, hd]
  · intro v hv
    rw [show s.for_each.1.for_each.2 = s.for_each.1.windows.map visitOf from rfl] at hv
    obtain ⟨x, hx, rfl⟩ := List.mem_map.1 hv
    rw [show s.for_each.1.windows = s.windows.map drainWindow from rfl] at hx
    obtain ⟨y, _, rfl⟩ := List.mem_map.1 hx
    simp [visitOf, drainWindow]

/-- C4 witness: draining a record with every one-shot field pending leaves
everything clear and commits the pending DPI 2. -/
theorem drain_resets_witness :
    ((drainWindow pendingWindow).newsize = none ∧ (drainWindow pendingWindow).new_dpi = none
      ∧ (drainWindow pendingWindow).need_refresh = false
      ∧ (drainWindow pendingWindow).need_frame_refresh = false
      ∧ (drainWindow pendingWindow).closed = false)
    ∧ (drainWindow pendingWindow).current_dpi = 2 :=
  ⟨(drain_resets ⟨[pendingWindow]⟩).1 (drainWindow pendingWindow) (by decide),
   (drain_resets ⟨[pendingWindow]⟩).2.1 pendingWindow (by decide) 2 (by decide)⟩

/-- C7 counterexample: a record whose weak frame reference no longer
upgrades is still visited — the visit sequence of a one-record store has
length one, not zero; the visitor merely receives none as frame argument. -/
theorem for_each_skip_counterexample :
    deadFrameWindow.frame = none
    ∧ (WindowStore.mk [deadFrameWindow]).for_each.2.length = 1
    ∧ ¬ (WindowStore.mk [deadFrameWindow]).for_each.2.length = 0
    ∧ (WindowStore.mk [deadFrameWindow]).for_each.2 = [visitOf deadFrameWindow]
    ∧ (visitOf deadFrameWindow).frame = none := by
  refine ⟨rfl, rfl, by decide, rfl, rfl⟩

/-- C7 amended: the drain pass invokes the visitor once for every record,
dead frame or not; the frame argument is none when the weak reference does
not upgrade (and also when the upgraded slot is empty), and is the live
frame when the upgrade succeeds on a full slot. -/
theorem for_each_frame_argument (s : WindowStore) :
    s.for_each.2 = s.windows.map visitOf
    ∧ (∀ w ∈ s.windows,
        (w.frame = none → (visitOf w).frame = none)
        ∧ (w.frame = some none → (visitOf w).frame = none)
        ∧ (∀ fr, w.frame = some (some fr) → (visitOf w).frame = some fr)) := by
  refine ⟨rfl, ?_⟩
  intro w _
  refine ⟨?_, ?_, ?_⟩
  · intro h; simp [visitOf, h]
  · intro h; simp [visitOf, h]
  · intro fr h; simp [visitOf, h]

/-- C7 witness: a record with a live frame is visited with that frame. -/
theorem for_each_frame_argument_witness :
    (visitOf liveFrameWindow).frame = some sampleFrame :=
  ((for_each_frame_argument ⟨[liveFrameWindow]⟩).2 liveFrameWindow
      (List.mem_singleton.mpr rfl)).2.2 sampleFrame rfl

/-- C2 counterexample: a handle made by new_from_raw_parts carries no kill
switch, so dropping it changes nothing, the following cleanup pass returns
the empty id sequence, and the record stays in the store: the destruction
of this window is never observable through cleanup. -/
theorem drop_observable_counterexample :
    rawPair.1.has_kill_switch = false
    ∧ Window.drop rawPair.2 rawPair.1 = rawPair.2
    ∧ (Window.drop rawPair.2 rawPair.1).store.cleanup.2.1 = []
    ∧ make_wid rawPair.1.surface ∉ (Window.drop rawPair.2 rawPair.1).store.cleanup.2.1
    ∧ (Window.drop rawPair.2 rawPair.1).store.cleanup.1.windows =
        [rawPartsRecord ⟨7, 100, 100⟩] := by
  refine ⟨rfl, rfl, rfl, by decide, rfl⟩

/-- C2 amended: for a window whose handle holds a kill switch (every window
made by Window::new does; only raw-parts windows do not), dropping the
handle marks the record, and the next cleanup pass removes the record and
reports its WindowId. -/
theorem drop_then_cleanup_observable (evlp : EventsLoopState) (w : Window)
    (hks : w.has_kill_switch = true)
    (hnd : (evlp.store.windows.map (fun iw => iw.surface)).Nodup)
    (hmem : ∃ iw ∈ evlp.store.windows, iw.surface = w.surface ∧ iw.kill_switch.isSome) :
    make_wid w.surface ∈ (Window.drop evlp w).store.cleanup.2.1
    ∧ ∀ iw ∈ (Window.drop evlp w).store.cleanup.1.windows, iw.surface ≠ w.surface := by
  obtain ⟨iw, hiw, hsurf, hsome⟩ := hmem
  have hdrop : (Window.drop evlp w).store.windows =
      evlp.store.windows.map (dropMark w.surface) := by
    simp [Window.drop, hks]
  have hgsurf : ∀ x : InternalWindow, (dropMark w.surface x).surface = x.surface := by
    intro x
    by_cases hx : x.surface == w.surface <;> simp [dropMark, hx]
  have hgiw : killSet (dropMark w.surface iw) = true := by
    obtain ⟨b, hb⟩ := Option.isSome_iff_exists.1 hsome
    simp [dropMark, killSet, hsurf, hb]
  constructor
  · show make_wid w.surface ∈ (cleanupWindows (Window.drop evlp w).store.windows).2.1
    rw [(cleanupWindows_spec _).2.1, hdrop]
    have hmem2 : dropMark w.surface iw ∈
        (evlp.store.windows.map (dropMark w.surface)).filter killSet :=
      List.mem_filter.2 ⟨List.mem_map_of_mem _ hiw, hgiw⟩
    have h5 := List.mem_map_of_mem (fun w2 => make_wid w2.surface) hmem2
    simpa [hgsurf iw, hsurf] using h5
  · intro iw2 h2 hcontra
    have h3 : iw2 ∈ (cleanupWindows (Window.drop evlp w).store.windows).1 := h2
    rw [(cleanupWindows_spec _).1, hdrop] at h3
    obtain ⟨h4, h5⟩ := List.mem_filter.1 h3
    obtain ⟨x, hx, rfl⟩ := List.mem_map.1 h4
    have hxs : x.surface = iw.surface := by
      rw [← hgsurf x, hcontra]
      exact hsurf.symm
    have hxiw : x = iw := List.inj_on_of_nodup_map hnd hx hiw hxs
    rw [hxiw] at h5
    simp [hgiw] at h5

/-- C2 witness: dropping the handle made by Window::new on surface 5 makes
the next cleanup pass report id 5 and leave no record with surface 5. -/
theorem drop_then_cleanup_observable_witness :
    make_wid newPair.1.surface ∈ (Window.drop newPair.2 newPair.1).store.cleanup.2.1
    ∧ ∀ iw ∈ (Window.drop newPair.2 newPair.1).store.cleanup.1.windows,
        iw.surface ≠ newPair.1.surface :=
  drop_then_cleanup_observable newPair.2 newPair.1 rfl (by decide)
    ⟨windowNewRecord 5 800 600 sampleFrame, List.mem_singleton.mpr rfl, rfl, rfl⟩

/-- C5: check_errors returns Err exactly of the slot content and clears the
slot, so a second check returns Ok; ignore_error clears without returning;
two writes before a check leave only the second retrievable. -/
theorem error_slot_spec (s : XConnectionState) (e e1 e2 : XError) :
    (s.check_errors.1 = Except.error e ↔ s.latest_error = some e)
    ∧ s.check_errors.2.latest_error = none
    ∧ s.check_errors.2.check_errors.1 = Except.ok ()
    ∧ s.ignore_error.check_errors.1 = Except.ok ()
    ∧ ((s.set_error e1).set_error e2).check_errors.1 = Except.error e2
    ∧ ((s.set_error e1).set_error e2).latest_error = some e2 := by
  cases h : s.latest_error with
  | none =>
    simp [XConnectionState.check_errors, XConnectionState.ignore_error,
      XConnectionState.set_error, h]
  | some x =>
    simp [XConnectionState.check_errors, XConnectionState.ignore_error,
      XConnectionState.set_error, h]

/-- C5 witness: a slot holding the first error reports it on check, and
after two writes only the second error is retrievable. -/
theorem error_slot_spec_witness :
    (XConnectionState.mk (some xerrA)).check_errors.1 = Except.error xerrA
    ∧ (((XConnectionState.mk none).set_error xerrA).set_error xerrB).check_errors.1 =
        Except.error xerrB :=
  ⟨(error_slot_spec ⟨some xerrA⟩ xerrA xerrA xerrB).1.mpr rfl,
   (error_slot_spec ⟨none⟩ xerrA xerrA xerrB).2.2.2.2.1⟩

/-- Marking a dropped handle in the store never changes a record surface. -/
theorem dropMark_surface (surf : Nat) (x : InternalWindow) :
    (dropMark surf x).surface = x.surface := by
  by_cases h : x.surface == surf <;> simp [dropMark, h]

/-- Forwarding a seat never changes a record surface. -/
theorem newSeatWindows_surfaces (seat : Nat) (ws ws2 : List InternalWindow)
    (h : newSeatWindows seat ws = .ok ws2) :
    ws2.map (fun w => w.surface) = ws.map (fun w => w.surface) := by
  induction ws generalizing ws2 with
  | nil =>
    simp [newSeatWindows] at h
    simp [← h]
  | cons w ws ih =>
    unfold newSeatWindows at h
    cases hw : newSeatWindow seat w with
    | error e => rw [hw] at h; exact absurd h (by simp)
    | ok w2 =>
      rw [hw] at h
      cases hws : newSeatWindows seat ws with
      | error e => rw [hws] at h; exact absurd h (by simp)
      | ok ws3 =>
        rw [hws] at h
        have hcons : w2 :: ws3 = ws2 := by
          injection h
        have hsurf : w2.surface = w.surface := by
          unfold newSeatWindow at hw
          cases hf : w.frame with
          | none =>
            rw [hf] at hw
            injection hw with h2
            rw [← h2]
          | some o =>
            cases o with
            | none => rw [hf] at hw; exact absurd hw (by simp)
            | some f =>
              rw [hf] at hw
              injection hw with h2
              rw [← h2]
        rw [← hcons]
        simp [hsurf, ih ws3 hws]

/-- C6: the per-surface uniqueness of store records is preserved by every
operation given a fresh surface at insertion; dpi_change, the drain pass
and seat forwarding never remove a record; cleanup only ever shrinks the
record list (keeping uniqueness); and dropping a handle never removes a
record, it only flips flags (surfaces and record count are unchanged). -/
theorem store_uniqueness_invariant (s : EventsLoopState)
    (hnd : (s.store.windows.map (fun w => w.surface)).Nodup) :
    (∀ surf wdt hgt fr, surf ∉ s.store.windows.map (fun w => w.surface) →
      (((Window.new s surf wdt hgt fr).2.store.windows.map (fun w => w.surface)).Nodup
        ∧ ∀ iw ∈ s.store.windows, iw ∈ (Window.new s surf wdt hgt fr).2.store.windows))
    ∧ (∀ rwp : RawWindowParts, rwp.surface ∉ s.store.windows.map (fun w => w.surface) →
      (((Window.new_from_raw_parts s rwp).2.store.windows.map (fun w => w.surface)).Nodup
        ∧ ∀ iw ∈ s.store.windows, iw ∈ (Window.new_from_raw_parts s rwp).2.store.windows))
    ∧ (∀ surf d, (s.store.dpi_change surf d).windows.map (fun w => w.surface) =
        s.store.windows.map (fun w => w.surface))
    ∧ (s.store.for_each.1.windows.map (fun w => w.surface) =
        s.store.windows.map (fun w => w.surface))
    ∧ (∀ seat s2, s.store.new_seat seat = Except.ok s2 →
        s2.windows.map (fun w => w.surface) = s.store.windows.map (fun w => w.surface))
    ∧ (s.store.cleanup.1.windows.Sublist s.store.windows
        ∧ (s.store.cleanup.1.windows.map (fun w => w.surface)).Nodup)
    ∧ (∀ w : Window, (Window.drop s w).store.windows.map (fun w2 => w2.surface) =
          s.store.windows.map (fun w2 => w2.surface)
        ∧ (Window.drop s w).store.windows.length = s.store.windows.length) := by
  refine ⟨?_, ?_, ?_, ?_, ?_, ?_, ?_⟩
  · intro surf wdt hgt fr hfresh
    constructor
    · show ((s.store.windows ++ [windowNewRecord surf wdt hgt fr]).map
          (fun w => w.surface)).Nodup
      rw [List.map_append]
      refine hnd.append (List.nodup_singleton _) ?_
      intro a ha hb
      simp [windowNewRecord] at hb
      subst hb
      exact hfresh ha
    · intro iw hiw
      exact List.mem_append_left _ hiw
  · intro rwp hfresh
    constructor
    · show ((s.store.windows ++ [rawPartsRecord rwp]).map (fun w => w.surface)).Nodup
      rw [List.map_append]
      refine hnd.append (List.nodup_singleton _) ?_
      intro a ha hb
      simp [rawPartsRecord] at hb
      subst hb
      exact hfresh ha
    · intro iw hiw
      exact List.mem_append_left _ hiw
  · intro surf d
    unfold WindowStore.dpi_change
    rw [List.map_map]
    apply List.map_congr_left
    intro x _
    by_cases h : x.surface == surf <;> simp [Function.comp, h]
  · show (s.store.windows.map drainWindow).map (fun w => w.surface) =
      s.store.windows.map (fun w => w.surface)
    rw [List.map_map]
    apply List.map_congr_left
    intro x _
    rfl
  · intro seat s2 h
    unfold WindowStore.new_seat at h
    cases hws : newSeatWindows seat s.store.windows with
    | error e => rw [hws] at h; exact absurd h (by simp)
    | ok ws3 =>
      rw [hws] at h
      have : WindowStore.mk ws3 = s2 := by injection h
      rw [← this]
      exact newSeatWindows_surfaces seat _ _ hws
  · have h1 := (cleanupWindows_spec s.store.windows).1
    constructor
    · show (cleanupWindows s.store.windows).1.Sublist s.store.windows
      rw [h1]
      exact List.filter_sublist _
    · show ((cleanupWindows s.store.windows).1.map (fun w => w.surface)).Nodup
      rw [h1]
      exact hnd.sublist ((List.filter_sublist _).map _)
  · intro w
    by_cases hks : w.has_kill_switch
    · have hdrop : (Window.drop s w).store.windows =
          s.store.windows.map (dropMark w.surface) := by
        simp [Window.drop, hks]
      constructor
      · rw [hdrop, List.map_map]
        apply List.map_congr_left
        intro x _
        exact dropMark_surface w.surface x
      · rw [hdrop]
        simp
    · simp [Window.drop, hks]

/-- C6 witness: dropping the handle of the one-window store changes neither
surfaces nor record count. -/
theorem store_uniqueness_invariant_witness :
    (Window.drop newPair.2 newPair.1).store.windows.map (fun w2 => w2.surface) =
      newPair.2.store.windows.map (fun w2 => w2.surface)
    ∧ (Window.drop newPair.2 newPair.1).store.windows.length =
      newPair.2.store.windows.length :=
  (store_uniqueness_invariant newPair.2 (by decide)).2.2.2.2.2.2 newPair.1

/-- C8: on Wayland, grab_cursor and set_cursor_position always return Err
with a fixed nonempty message, never touch the window state, and are total
(no panic path exists in their embedding). -/
theorem cursor_ops_unsupported (w : Window) (grab : Bool) (pos : Int × Int) :
    (w.grab_cursor grab).1 = Except.error grabCursorMsg
    ∧ (w.grab_cursor grab).2 = w
    ∧ grabCursorMsg ≠ ""
    ∧ (w.set_cursor_position pos).1 = Except.error setCursorPositionMsg
    ∧ (w.set_cursor_position pos).2 = w
    ∧ setCursorPositionMsg ≠ "" :=
  ⟨rfl, rfl, by decide, rfl, rfl, by decide⟩

/-- C9: a window made from raw parts has an empty frame slot, and every
frame-dependent operation hits the expect with the fixed message (the
panic is modelled as Except.error). -/
theorem raw_parts_frame_ops (evlp : EventsLoopState) (rwp : RawWindowParts)
    (t : String) (sz : Nat × Nat) (d : Option (Nat × Nat)) (b : Bool) (m : Option Nat) :
    (Window.new_from_raw_parts evlp rwp).1.frame = none
    ∧ (Window.new_from_raw_parts evlp rwp).1.set_title t = .error frameExpectMsg
    ∧ (Window.new_from_raw_parts evlp rwp).1.set_inner_size sz = .error frameExpectMsg
    ∧ (Window.new_from_raw_parts evlp rwp).1.set_min_dimensions d = .error frameExpectMsg
    ∧ (Window.new_from_raw_parts evlp rwp).1.set_max_dimensions d = .error frameExpectMsg
    ∧ (Window.new_from_raw_parts evlp rwp).1.set_resizable b = .error frameExpectMsg
    ∧ (Window.new_from_raw_parts evlp rwp).1.set_decorations b = .error frameExpectMsg
    ∧ (Window.new_from_raw_parts evlp rwp).1.set_maximized b = .error frameExpectMsg
    ∧ (Window.new_from_raw_parts evlp rwp).1.set_fullscreen m = .error frameExpectMsg :=
  ⟨rfl, rfl, rfl, rfl, rfl, rfl, rfl, rfl, rfl⟩

/-- C10: with an empty monitor list, get_current_monitor hits the unwrap of
last (modelled as none) while hidpi_factor still returns 1. -/
theorem empty_monitor_list_current_monitor (w : Window)
    (h : w.monitors.monitors = []) :
    w.get_current_monitor = none ∧ w.hidpi_factor = 1 := by
  constructor
  · simp [Window.get_current_monitor, h]
  · simp [Window.hidpi_factor, MonitorList.compute_hidpi_factor, h]

/-- C10 witness: the bare window overlaps no monitor; its current-monitor
query yields the unwrap failure and its factor is 1. -/
theorem empty_monitor_list_current_monitor_witness :
    bareWindow.get_current_monitor = none ∧ bareWindow.hidpi_factor = 1 :=
  empty_monitor_list_current_monitor bareWindow rfl

end Winit
